import Mathlib

/-!
Verification of the client-side resumable streaming pipeline of omni-ai-chat.

The embedded code is the `ChatEventSource` class and `sendChatMessage` helper
(frontend SSE client, `src/unnamed/part_012`) together with the chat route
component's SSE callback handlers (`src/frontend/src/routes/index.tsx`,
`ChatComponent`: `handleSSEStart`, `handleSSEChunk`, `handleSSEComplete`,
`handleSSEError`, `handleSendMessage`, and the options object passed to
`new ChatEventSource(...)`).

JavaScript-specific conventions used throughout:
* optional fields are `Option` values; JS string truthiness (`undefined`,
  `null` and `""` are falsy) is modelled by `truthy`;
* `a || b` on optional strings is `orDefault`;
* `Date` values are carried as their source strings / numeric ticks;
* `localStorage` is a per-instance `Option String` slot (the class only ever
  touches its own `chat_last_message_id_<chatId>` key).
-/

/-- Event kinds of the SSE stream protocol (`StreamMessage.type` union in
`src/unnamed/part_012`). -/
inductive EventType
  | start
  | chunk
  | complete
  | error
  | connected
  | heartbeat
  | terminated
deriving DecidableEq, Repr

/-- The `StreamMessage` payload interface from `src/unnamed/part_012`.
Numeric JSON fields that the client only passes through are kept as `Nat`;
`tokens` is a string in the wire format (the client parses it with
`parseInt`). -/
structure StreamMessage where
  type : EventType
  content : Option String := none
  message_id : Option String := none
  task_id : Option String := none
  sequence : Option Nat := none
  total_chunks : Option Nat := none
  tokens : Option String := none
  completed_at : Option String := none
  timestamp : String := ""
  stream_id : Option String := none
  consumer : Option String := none
  last_id : Option String := none
deriving DecidableEq, Repr

/-- JS truthiness of an optional string: `undefined` and `""` are falsy. -/
def truthy : Option String → Bool
  | none => false
  | some s => !(s == "")

/-- JS `a || b` for an optional string `a` and default `b`. -/
def orDefault (o : Option String) (dflt : String) : String :=
  if truthy o then o.getD "" else dflt

/-- Model of JS `parseInt` restricted to the nonnegative decimal strings the
backend sends as token counts: the longest leading digit run, `none` when
there is none (JS would yield `NaN`, which like `undefined` is modelled as
`none`). -/
def parseIntJS (s : String) : Option Nat :=
  let ds := s.toList.takeWhile (fun c => c.isDigit)
  if ds.isEmpty then none
  else some (ds.foldl (fun n c => 10 * n + (c.toNat - 48)) 0)

/-- An open `EventSource` connection, identified by the URL it was opened
with. -/
structure Conn where
  url : String
deriving DecidableEq, Repr

/-- The mutable private fields of a `ChatEventSource` instance, plus its
`localStorage` slot `chat_last_message_id_<chatId>` (`storedLastMessageId`).
Defaults are the field initializers of the class. -/
structure CESState where
  eventSource : Option Conn := none
  reconnectAttempts : Nat := 0
  reconnectDelay : Nat := 1000
  lastMessageId : Option String := none
  isManualClose : Bool := false
  storedLastMessageId : Option String := none
deriving DecidableEq, Repr

/-- `maxReconnectAttempts` field initializer. -/
def maxReconnectAttempts : Nat := 5

/-- The constructor: `this.lastMessageId = this.getStoredLastMessageId()`
loads the durable cursor into the in-memory field. -/
def mkChatEventSource (stored : Option String) : CESState :=
  { lastMessageId := stored, storedLastMessageId := stored }

/-- `storeLastMessageId`: writes the id to `localStorage` and mirrors it in
`this.lastMessageId`. -/
def storeLastMessageId (s : CESState) (messageId : String) : CESState :=
  { s with storedLastMessageId := some messageId, lastMessageId := some messageId }

/-- `clearStoredLastMessageId`: removes the `localStorage` entry and nulls
`this.lastMessageId`. -/
def clearStoredLastMessageId (s : CESState) : CESState :=
  { s with storedLastMessageId := none, lastMessageId := none }

/-- Characters `encodeURIComponent` leaves unescaped (ASCII letters, digits,
`- _ . ! ~ * ' ( )`; code point 39 is the apostrophe). -/
def isUnreservedURIChar (c : Char) : Bool :=
  c.isAlphanum || c == '-' || c == '_' || c == '.' || c == '!' || c == '~' ||
    c == '*' || c.toNat == 39 || c == '(' || c == ')'

/-- Uppercase hexadecimal digit. -/
def hexDigitChar (n : Nat) : Char :=
  if n < 10 then Char.ofNat (48 + n) else Char.ofNat (55 + n)

/-- ASCII model of the `encodeURIComponent` builtin (percent-encodes every
reserved character); the Redis stream ids it is applied to are ASCII
digits and hyphens. -/
def encodeURIComponent (s : String) : String :=
  String.join (s.toList.map (fun c =>
    if isUnreservedURIChar c then String.mk [c]
    else String.mk ['%', hexDigitChar (c.toNat / 16 % 16), hexDigitChar (c.toNat % 16)]))

/-- URL construction inside `connect()`: the SSE endpoint for the chat, with
the optional `?last_id=` resume parameter appended exactly when
`this.lastMessageId` is truthy. -/
def connectUrl (baseUrl chatId : String) (lastMessageId : Option String) : String :=
  let url := baseUrl ++ "/sse/chat/" ++ chatId
  if truthy lastMessageId then
    url ++ "?last_id=" ++ encodeURIComponent (lastMessageId.getD "")
  else
    url

/-- `connect()`: returns immediately when an `EventSource` already exists;
otherwise clears `isManualClose` and opens a new `EventSource` on the
resume URL. (The `onopen`/`onmessage`/`onerror` callbacks it installs are
modelled separately as `onOpen`, `handleMessage` and `onTransportError`.) -/
def connect (baseUrl chatId : String) (s : CESState) : CESState :=
  if s.eventSource.isSome then s
  else
    { s with
      isManualClose := false
      eventSource := some ⟨connectUrl baseUrl chatId s.lastMessageId⟩ }

/-- The `onopen` callback: resets the reconnection counter and delay. -/
def onOpen (s : CESState) : CESState :=
  { s with reconnectAttempts := 0, reconnectDelay := 1000 }

/-- `disconnect()`: marks the close as manual and drops the `EventSource`. -/
def disconnect (s : CESState) : CESState :=
  { s with isManualClose := true, eventSource := none }

/-- `reset()`: clears the stored message id (used when starting a new
conversation). -/
def reset (s : CESState) : CESState :=
  clearStoredLastMessageId s

/-- One requested callback invocation, mirroring `ChatEventSourceOptions`.
`handleMessage` produces the list of invocations it dispatches; a missing
optional callback simply makes the corresponding invocation a no-op at the
wiring layer. -/
inductive Callback
  | onStart (messageId : String)
  | onChunk (content : String) (seq : Option Nat)
  | onComplete (messageId : String) (totalChunks : Option Nat)
      (tok : Option Nat) (completedAt : Option String)
  | onError (err : String)
  | onConnected (consumer : String)
  | onHeartbeat (lastId : Option String)
  | onTerminated (taskId : String) (msg : Option String)
deriving DecidableEq, Repr

/-- `handleMessage(data)`: stores `data.stream_id` when truthy, then
dispatches on `data.type`, returning the updated state and the callback
invocations performed. The TS `default` branch only logs; it is unreachable
here because `EventType` is the closed union of the protocol. -/
def handleMessage (s : CESState) (d : StreamMessage) : CESState × List Callback :=
  let s1 := if truthy d.stream_id then storeLastMessageId s (d.stream_id.getD "") else s
  match d.type with
  | .connected => (s1, [.onConnected (orDefault d.consumer "unknown")])
  | .start => (s1, [.onStart (orDefault d.message_id "unknown")])
  | .chunk =>
      if truthy d.content then (s1, [.onChunk (d.content.getD "") d.sequence])
      else (s1, [])
  | .complete =>
      (s1, [.onComplete (orDefault d.message_id "unknown") d.total_chunks
        (if truthy d.tokens then parseIntJS (d.tokens.getD "") else none)
        (if truthy d.completed_at then some (d.completed_at.getD "") else none)])
  | .error => (s1, [.onError (orDefault d.content "Unknown stream error")])
  | .heartbeat =>
      let s2 := if truthy d.last_id then storeLastMessageId s1 (d.last_id.getD "") else s1
      (s2, [.onHeartbeat d.last_id])
  | .terminated => (s1, [.onTerminated (orDefault d.task_id "unknown") d.content])

/-- Outcome of one firing of the `onerror` callback. -/
inductive ErrorOutcome
  | scheduleReconnect (delayMs : Nat)
  | surfaceTerminal
  | ignore
deriving DecidableEq, Repr

/-- The `onerror` callback: below the attempt budget (and not manually
closed) it increments the attempt counter and schedules a
disconnect-then-reconnect after `reconnectDelay * 2 ^ (attempts - 1)`
milliseconds; at or above the budget it invokes
`options.onError('Failed to reconnect to chat stream')`
(`surfaceTerminal`). -/
def onTransportError (s : CESState) : CESState × ErrorOutcome :=
  if !s.isManualClose && s.reconnectAttempts < maxReconnectAttempts then
    let attempts := s.reconnectAttempts + 1
    ({ s with reconnectAttempts := attempts },
      .scheduleReconnect (s.reconnectDelay * 2 ^ (attempts - 1)))
  else if maxReconnectAttempts ≤ s.reconnectAttempts then
    (s, .surfaceTerminal)
  else
    (s, .ignore)

/-- State after `n` consecutive transport failures starting from `s`. -/
def afterFailures (s : CESState) : Nat → CESState
  | 0 => s
  | n + 1 => (onTransportError (afterFailures s n)).1

/-- Outcome of the `(n+1)`-th consecutive transport failure from `s`. -/
def failureOutcome (s : CESState) (n : Nat) : ErrorOutcome :=
  (onTransportError (afterFailures s n)).2

/-! ## The chat route component (`ChatComponent` in `src/frontend/src/routes/index.tsx`) -/

/-- Message lifecycle status (`Message.status` union in the atoms module). -/
inductive MsgStatus
  | complete
  | incomplete
  | streaming
  | terminated
deriving DecidableEq, Repr

/-- The `Message` interface of the atoms module; `timestamp` models the
`new Date()` creation tick, `completedAt` the completion `Date` carried as
its source string. -/
structure Message where
  content : String
  isUser : Bool
  timestamp : Nat
  model : String
  completedAt : Option String := none
  status : Option MsgStatus := none
  isComplete : Option Bool := none
  tempId : Option String := none
  tokens : Option Nat := none
deriving DecidableEq, Repr

/-- The pieces of `ChatComponent` state the SSE handlers read or write:
the `messages` atom, the `isLoading` atom and the `spacerHeight` local
state. -/
structure RouteState where
  messages : List Message
  isLoading : Bool
  spacerHeight : Nat
deriving DecidableEq, Repr

/-- `handleSSEStart`: appends a fresh streaming assistant placeholder. -/
def handleSSEStart (modelId : String) (now : Nat) (st : RouteState) : RouteState :=
  { st with
    messages := st.messages ++
      [{ content := "", isUser := false, timestamp := now, model := modelId,
         status := some .streaming, isComplete := some false }] }

/-- The guard of `handleSSEChunk`:
`lastMessage && !lastMessage.isUser && lastMessage.status === 'streaming'`. -/
def isStreamingAssistant (m : Message) : Bool :=
  !m.isUser && m.status == some MsgStatus.streaming

/-- `handleSSEChunk`: appends `text` to the trailing streaming assistant
message, or creates one as a fallback when none is in progress. -/
def handleSSEChunk (modelId : String) (now : Nat) (text : String) (st : RouteState) :
    RouteState :=
  match st.messages.getLast? with
  | some lastMessage =>
      if isStreamingAssistant lastMessage then
        { st with
          messages := st.messages.dropLast ++
            [{ lastMessage with
               content := lastMessage.content ++ text, status := some .streaming }] }
      else
        { st with
          messages := st.messages ++
            [{ content := text, isUser := false, timestamp := now, model := modelId,
               status := some .streaming, isComplete := some false }] }
  | none =>
      { st with
        messages := st.messages ++
          [{ content := text, isUser := false, timestamp := now, model := modelId,
             status := some .streaming, isComplete := some false }] }

/-- The `prev.map((m, i) => i === prev.length - 1 ? upd(m) : m)` pattern of
`handleSSEComplete` / `handleSSEError`: update only the entry at index
`length - 1`. -/
def mapLastIndexed (f : Message → Message) (msgs : List Message) : List Message :=
  msgs.mapIdx (fun i m => if i + 1 = msgs.length then f m else m)

/-- `handleSSEComplete`: clears loading and spacer, finalizes the last
message with `complete` status, token count and completion timestamp
(`messageId` and `totalChunks` are only logged). -/
def handleSSEComplete (tok : Option Nat) (completedAt : Option String)
    (st : RouteState) : RouteState :=
  { messages := mapLastIndexed
      (fun m => { m with
        status := some .complete
        isComplete := some true
        tokens := tok
        completedAt := completedAt }) st.messages,
    isLoading := false,
    spacerHeight := 0 }

/-- `handleSSEError`: clears loading and spacer and marks the last message
incomplete (the error string itself is only logged). -/
def handleSSEError (st : RouteState) : RouteState :=
  { messages := mapLastIndexed
      (fun m => { m with status := some .incomplete, isComplete := some false })
      st.messages,
    isLoading := false,
    spacerHeight := 0 }

/-- The options object `ChatComponent` passes to `new ChatEventSource(...)`:
`onChunk`, `onComplete`, `onError`, `onStart` are the four handlers above;
`onConnected` only logs and may send `location.state.firstMessage` over HTTP
(an external request, modelled separately as `handleSendMessage`);
`onHeartbeat` only logs; no `onTerminated` is registered, so that dispatch
leaves the component state unchanged. -/
def applyCallback (modelId : String) (now : Nat) (st : RouteState) :
    Callback → RouteState
  | .onChunk text _ => handleSSEChunk modelId now text st
  | .onComplete _ _ tok completedAt => handleSSEComplete tok completedAt st
  | .onError _ => handleSSEError st
  | .onStart _ => handleSSEStart modelId now st
  | .onConnected _ => st
  | .onHeartbeat _ => st
  | .onTerminated _ _ => st

/-- Combined client state: the `ChatEventSource` instance plus the route
component state its callbacks mutate. -/
structure ConsumerState where
  ces : CESState
  route : RouteState
deriving DecidableEq, Repr

/-- Delivery of one SSE frame: `handleMessage` updates the event-source
state and dispatches callbacks, which the route component's handlers fold
over its state. -/
def processEvent (modelId : String) (now : Nat) (cs : ConsumerState)
    (d : StreamMessage) : ConsumerState :=
  let r := handleMessage cs.ces d
  { ces := r.1, route := r.2.foldl (applyCallback modelId now) cs.route }

/-- Delivery of a sequence of SSE frames in order. -/
def processEvents (modelId : String) (now : Nat) :
    ConsumerState → List StreamMessage → ConsumerState :=
  List.foldl (processEvent modelId now)

/-- Result shape of `sendChatMessage` as consumed by `handleSendMessage`. -/
structure SendResult where
  success : Bool
  error : Option String := none
  tokens : Option Nat := none
deriving DecidableEq, Repr

/-- Model of the JS `String.prototype.trim` builtin: strips leading and
trailing whitespace. -/
def trimJS (s : String) : String :=
  String.mk ((s.toList.dropWhile Char.isWhitespace).reverse.dropWhile
    Char.isWhitespace).reverse

/-- `handleSendMessage`: guards on empty input and `isLoading`, appends the
optimistic user message (tagged `temp-<Date.now()>`) and sets loading, then
on failure filters the optimistic message back out, clears loading and the
spacer; on success it only backfills the token count. -/
def handleSendMessage (modelId : String) (now : Nat) (messageText : String)
    (result : SendResult) (st : RouteState) : RouteState :=
  let textToSend := trimJS messageText
  if textToSend == "" || st.isLoading then st
  else
    let tempId := "temp-" ++ toString now
    let optimisticMessage : Message :=
      { content := textToSend, isUser := true, timestamp := now, model := modelId,
        status := some .complete, isComplete := some true,
        tempId := some tempId, tokens := some 0 }
    let st1 : RouteState :=
      { st with messages := st.messages ++ [optimisticMessage], isLoading := true }
    if !result.success then
      { st1 with
        messages := st1.messages.filter (fun msg => !(msg.tempId == some tempId)),
        isLoading := false,
        spacerHeight := 0 }
    else if (match result.tokens with | some t => decide (0 < t) | none => false) then
      { st1 with
        messages := st1.messages.map (fun msg =>
          if msg.tempId == some tempId then { msg with tokens := result.tokens }
          else msg) }
    else
      st1

/-- The guard "a streaming assistant message is currently in progress":
the message list's last entry is a non-user message with status
`streaming`. -/
def hasStreamingLast (msgs : List Message) : Bool :=
  match msgs.getLast? with
  | some m => isStreamingAssistant m
  | none => false

/-- C10: calling `connect` twice is the same as calling it once: the early
return on an existing `eventSource` makes `connect` idempotent, so a
`ChatEventSource` holds at most one underlying `EventSource` and a second
`connect` neither opens a second connection nor resets any state. -/
theorem connect_idempotent (baseUrl chatId : String) (s : CESState) :
    connect baseUrl chatId (connect baseUrl chatId s) = connect baseUrl chatId s := by
  unfold connect
  by_cases h : s.eventSource.isSome
  · simp [h]
  · simp [h]

/-! ## Helper lemmas -/

/-- `mapIdx` with an update guarded on an index no entry has is the
identity. -/
lemma mapIdx_if_out_of_range (f : Message → Message) (l : List Message) (n : Nat)
    (h : ∀ i, i < l.length → i + 1 ≠ n) :
    l.mapIdx (fun i m => if i + 1 = n then f m else m) = l := by
  apply List.ext_get
  · simp
  · intro i h1 h2
    rw [List.get_mapIdx]
    exact if_neg (h i h2)

/-- Updating index `length - 1` of `init ++ [m]` updates exactly `m`. -/
lemma mapLastIndexed_concat (f : Message → Message) (init : List Message)
    (m : Message) :
    mapLastIndexed f (init ++ [m]) = init ++ [f m] := by
  unfold mapLastIndexed
  rw [List.mapIdx_append_one]
  simp only [List.length_append, List.length_cons, List.length_nil]
  rw [mapIdx_if_out_of_range]
  · simp
  · intro i hi
    omega

/-- Trace of consecutive transport failures from a freshly (re)opened
connection: attempts saturate at the budget. -/
lemma afterFailures_closed (es : Option Conn) (rd : Nat) (lm : Option String)
    (st : Option String) (n : Nat) :
    afterFailures ⟨es, 0, rd, lm, false, st⟩ n =
      ⟨es, min n maxReconnectAttempts, rd, lm, false, st⟩ := by
  induction n with
  | zero => simp [afterFailures]
  | succ n ih =>
      rw [afterFailures, ih, onTransportError]
      by_cases h : min n maxReconnectAttempts < maxReconnectAttempts
      · have h1 : min n maxReconnectAttempts = n := by
          unfold maxReconnectAttempts at *; omega
        have h2 : min (n + 1) maxReconnectAttempts = n + 1 := by
          unfold maxReconnectAttempts at *; omega
        have h3 : n < maxReconnectAttempts := by omega
        simp [h, h1, h2, h3]
      · have h1 : min n maxReconnectAttempts = maxReconnectAttempts := by omega
        have h2 : min (n + 1) maxReconnectAttempts = maxReconnectAttempts := by omega
        simp [h, h1, h2]

/-- C4: on transport failure the client reconnects with exponentially
increasing delays — starting from a fresh connection the `(n+1)`-th
consecutive failure (for `n` below the budget of `maxReconnectAttempts`)
schedules a reconnect after `1000 * 2 ^ n` ms, so each retry delay doubles
the previous one starting from the 1000 ms base — and the terminal
`onError('Failed to reconnect to chat stream')` is surfaced only once at
least `maxReconnectAttempts` failures have occurred, never before. -/
theorem reconnect_backoff_bounded (s : CESState)
    (hm : s.isManualClose = false) (ha : s.reconnectAttempts = 0)
    (hd : s.reconnectDelay = 1000) :
    (∀ n, failureOutcome s n = ErrorOutcome.surfaceTerminal →
      maxReconnectAttempts ≤ n) ∧
    (∀ n, n < maxReconnectAttempts →
      failureOutcome s n = ErrorOutcome.scheduleReconnect (1000 * 2 ^ n)) ∧
    (∀ n d', n + 1 < maxReconnectAttempts →
      failureOutcome s n = ErrorOutcome.scheduleReconnect d' →
      failureOutcome s (n + 1) = ErrorOutcome.scheduleReconnect (2 * d')) := by
  obtain ⟨es, ra, rd, lm, mc, st⟩ := s
  simp only at hm ha hd
  subst hm ha hd
  have hout : ∀ n, failureOutcome ⟨es, 0, 1000, lm, false, st⟩ n =
      (onTransportError ⟨es, min n maxReconnectAttempts, 1000, lm, false, st⟩).2 := by
    intro n
    rw [failureOutcome, afterFailures_closed]
  refine ⟨?_, ?_, ?_⟩
  · intro n hterm
    rw [hout, onTransportError] at hterm
    by_cases h : min n maxReconnectAttempts < maxReconnectAttempts
    · simp [h] at hterm
    · omega
  · intro n hn
    have h1 : min n maxReconnectAttempts = n := by omega
    rw [hout, onTransportError]
    simp [h1, hn]
  · intro n d' hn hprev
    have h1 : min n maxReconnectAttempts = n := by omega
    have h2 : min (n + 1) maxReconnectAttempts = n + 1 := by omega
    rw [hout, onTransportError] at hprev
    simp [h1, (by omega : n < maxReconnectAttempts)] at hprev
    rw [hout, onTransportError]
    simp [h2, hn]
    rw [← hprev]
    ring

/-- Concrete instance of `reconnect_backoff_bounded`: from a fresh
`ChatEventSource`, the third consecutive failure schedules a 4000 ms retry
(double the second's 2000 ms), and a terminal outcome forces at least five
prior failures. -/
theorem reconnect_backoff_bounded_witness :
    failureOutcome (mkChatEventSource none) 2 =
      ErrorOutcome.scheduleReconnect (1000 * 2 ^ 2) ∧
    (failureOutcome (mkChatEventSource none) 5 = ErrorOutcome.surfaceTerminal →
      maxReconnectAttempts ≤ 5) := by
  constructor
  · exact (reconnect_backoff_bounded (mkChatEventSource none) rfl rfl rfl).2.1 2
      (by decide)
  · exact (reconnect_backoff_bounded (mkChatEventSource none) rfl rfl rfl).1 5

/-- C5: `handleMessage` persists the processed event's offset — for any
non-heartbeat event carrying a `stream_id` the stored cursor afterwards is
exactly that id, and for a heartbeat the cursor becomes the offset the
heartbeat carries in `last_id` — and `connect()` resumes from the stored
cursor: when a cursor is stored the new `EventSource` URL carries
`?last_id=<cursor>`, and when none is stored the URL has no such
parameter. -/
theorem cursor_persisted_and_resumed :
    (∀ (s : CESState) (d : StreamMessage) (sid : String),
      d.type ≠ EventType.heartbeat → d.stream_id = some sid → sid ≠ "" →
        (handleMessage s d).1.lastMessageId = some sid ∧
        (handleMessage s d).1.storedLastMessageId = some sid) ∧
    (∀ (s : CESState) (d : StreamMessage) (lid : String),
      d.type = EventType.heartbeat → d.last_id = some lid → lid ≠ "" →
        (handleMessage s d).1.lastMessageId = some lid ∧
        (handleMessage s d).1.storedLastMessageId = some lid) ∧
    (∀ (s : CESState) (baseUrl chatId c : String),
      s.eventSource = none → s.lastMessageId = some c → c ≠ "" →
        connect baseUrl chatId s =
          { s with
            isManualClose := false
            eventSource := some ⟨baseUrl ++ "/sse/chat/" ++ chatId ++ "?last_id=" ++
              encodeURIComponent c⟩ }) ∧
    (∀ (s : CESState) (baseUrl chatId : String),
      s.eventSource = none → s.lastMessageId = none →
        connect baseUrl chatId s =
          { s with
            isManualClose := false
            eventSource := some ⟨baseUrl ++ "/sse/chat/" ++ chatId⟩ }) := by
  refine ⟨?_, ?_, ?_, ?_⟩
  · intro s d sid hty hsid hne
    rw [handleMessage]
    rcases d with ⟨ty, co, mi, ta, se, tc, tks, ca, ts, si, consu, li⟩
    simp only at hsid hty
    subst hsid
    cases ty <;>
      simp_all [truthy, storeLastMessageId] <;>
      split <;> simp [storeLastMessageId]
  · intro s d lid hty hlid hne
    rw [handleMessage]
    rcases d with ⟨ty, co, mi, ta, se, tc, tks, ca, ts, si, consu, li⟩
    simp only at hlid hty
    subst hlid hty
    simp only [truthy]
    split <;> simp_all [truthy, storeLastMessageId]
  · intro s baseUrl chatId c hes hlm hne
    rw [connect, connectUrl]
    simp [hes, hlm, truthy, hne]
  · intro s baseUrl chatId hes hlm
    rw [connect, connectUrl]
    simp [hes, hlm, truthy]

/-- Concrete instance of `cursor_persisted_and_resumed`: a chunk at offset
`1700000000000-0` moves the durable cursor there, and a reconnect with that
cursor stored opens `<base>/sse/chat/c1?last_id=1700000000000-0` while a
cursorless connect opens the bare stream URL. -/
theorem cursor_persisted_and_resumed_witness :
    (handleMessage (mkChatEventSource none)
      { type := EventType.chunk, content := some "Hel",
        stream_id := some "1700000000000-0" }).1.lastMessageId =
      some "1700000000000-0" ∧
    (handleMessage (mkChatEventSource none)
      { type := EventType.heartbeat,
        last_id := some "1700000000000-5" }).1.storedLastMessageId =
      some "1700000000000-5" ∧
    connect "http://localhost:8000" "c1" (mkChatEventSource (some "1700000000000-0")) =
      { mkChatEventSource (some "1700000000000-0") with
        isManualClose := false
        eventSource := some ⟨"http://localhost:8000/sse/chat/c1?last_id=" ++
          encodeURIComponent "1700000000000-0"⟩ } ∧
    connect "http://localhost:8000" "c1" (mkChatEventSource none) =
      { mkChatEventSource none with
        isManualClose := false
        eventSource := some ⟨"http://localhost:8000/sse/chat/c1"⟩ } := by
  refine ⟨?_, ?_, ?_, ?_⟩
  · exact (cursor_persisted_and_resumed.1 (mkChatEventSource none) _ "1700000000000-0"
      (by decide) rfl (by decide)).1
  · exact (cursor_persisted_and_resumed.2.1 (mkChatEventSource none) _ "1700000000000-5"
      rfl rfl (by decide)).2
  · exact (cursor_persisted_and_resumed.2.2.1 (mkChatEventSource (some "1700000000000-0"))
      "http://localhost:8000" "c1" "1700000000000-0" rfl rfl (by decide))
  · exact (cursor_persisted_and_resumed.2.2.2 (mkChatEventSource none)
      "http://localhost:8000" "c1" rfl rfl)

/-- C8: delivering a heartbeat frame that carries a `last_id` updates only
the persisted cursor — both the in-memory and the durable copy become that
`last_id`, even though the client processed no event at that offset — and
dispatches exactly the `onHeartbeat` callback, which the route component
does not act on: the message list, loading flag, spacer and every other
`ChatEventSource` field are unchanged. -/
theorem heartbeat_updates_only_cursor (modelId : String) (now : Nat)
    (cs : ConsumerState) (d : StreamMessage) (lid : String)
    (hty : d.type = EventType.heartbeat) (hlid : d.last_id = some lid)
    (hne : lid ≠ "") :
    (processEvent modelId now cs d).route = cs.route ∧
    (processEvent modelId now cs d).ces.lastMessageId = some lid ∧
    (processEvent modelId now cs d).ces.storedLastMessageId = some lid ∧
    (processEvent modelId now cs d).ces.eventSource = cs.ces.eventSource ∧
    (processEvent modelId now cs d).ces.reconnectAttempts = cs.ces.reconnectAttempts ∧
    (processEvent modelId now cs d).ces.reconnectDelay = cs.ces.reconnectDelay ∧
    (processEvent modelId now cs d).ces.isManualClose = cs.ces.isManualClose ∧
    (handleMessage cs.ces d).2 = [Callback.onHeartbeat (some lid)] := by
  rw [processEvent, handleMessage]
  rcases d with ⟨ty, co, mi, ta, se, tc, tks, ca, ts, si, consu, li⟩
  simp only at hty hlid
  subst hty hlid
  simp only [truthy]
  split <;> simp_all [truthy, storeLastMessageId, applyCallback]
  split <;> simp_all [storeLastMessageId]

/-- Concrete instance of `heartbeat_updates_only_cursor`: a heartbeat with
`last_id = "1700000000000-9"` delivered to a consumer mid-stream leaves the
route state intact and moves only the cursor. -/
theorem heartbeat_updates_only_cursor_witness :
    (processEvent "gemini-2.0-flash" 0
      ⟨mkChatEventSource (some "1700000000000-3"),
        { messages := [{ content := "Hel", isUser := false, timestamp := 0, model := "gemini-2.0-flash", status := some MsgStatus.streaming, isComplete := some false }],
          isLoading := true, spacerHeight := 40 }⟩
      { type := EventType.heartbeat, last_id := some "1700000000000-9" }).route =
      { messages := [{ content := "Hel", isUser := false, timestamp := 0, model := "gemini-2.0-flash", status := some MsgStatus.streaming, isComplete := some false }],
        isLoading := true, spacerHeight := 40 } ∧
    (processEvent "gemini-2.0-flash" 0
      ⟨mkChatEventSource (some "1700000000000-3"),
        { messages := [{ content := "Hel", isUser := false, timestamp := 0, model := "gemini-2.0-flash", status := some MsgStatus.streaming, isComplete := some false }],
          isLoading := true, spacerHeight := 40 }⟩
      { type := EventType.heartbeat, last_id := some "1700000000000-9" }).ces.storedLastMessageId =
      some "1700000000000-9" := by
  have h := heartbeat_updates_only_cursor "gemini-2.0-flash" 0
    ⟨mkChatEventSource (some "1700000000000-3"),
      { messages := [{ content := "Hel", isUser := false, timestamp := 0, model := "gemini-2.0-flash", status := some MsgStatus.streaming, isComplete := some false }],
        isLoading := true, spacerHeight := 40 }⟩
    { type := EventType.heartbeat, last_id := some "1700000000000-9" }
    "1700000000000-9" rfl rfl (by decide)
  exact ⟨h.1, h.2.2.1⟩

/-- C1 counterexample: with the durable cursor at offset `1700000000000-5`,
redelivering the chunk event whose `stream_id` is that same offset (hence
`≤` the last-processed offset) is NOT ignored by `handleMessage`: the
`onChunk` outcome callback fires, and delivering the event twice to a
consumer mid-stream appends its text twice, so replay is not idempotent at
the consumer. -/
theorem dedup_claim_counterexample :
    (handleMessage (mkChatEventSource (some "1700000000000-5"))
      { type := EventType.chunk, content := some "dup",
        stream_id := some "1700000000000-5" }).2 =
      [Callback.onChunk "dup" none] ∧
    (processEvents "m" 0
      ⟨mkChatEventSource (some "1700000000000-5"),
        { messages := [{ content := "He", isUser := false, timestamp := 0, model := "m", status := some MsgStatus.streaming, isComplete := some false }],
          isLoading := true, spacerHeight := 0 }⟩
      [{ type := EventType.chunk, content := some "dup", stream_id := some "1700000000000-5" },
       { type := EventType.chunk, content := some "dup", stream_id := some "1700000000000-5" }]).route.messages.map
        Message.content = ["Hedupdup"] := by
  constructor
  · rfl
  · rfl

/-- C1 amended: `handleMessage` performs no offset comparison at all — the
outcome callbacks it dispatches for an event are identical whatever cursor
value is stored, so every delivered event is processed (and re-processed on
redelivery). Duplicate-free replay relies solely on `connect()` requesting
only events after the stored offset via the `last_id` parameter. -/
theorem handleMessage_no_offset_filter (s : CESState) (cur stor : Option String)
    (d : StreamMessage) :
    (handleMessage { s with lastMessageId := cur, storedLastMessageId := stor } d).2 =
      (handleMessage s d).2 := by
  rcases d with ⟨ty, co, mi, ta, se, tc, tks, ca, ts, si, consu, li⟩
  cases ty <;> simp [handleMessage, storeLastMessageId, apply_ite Prod.snd]

/-- C2 counterexample: with cursor `1700000000000-7` stored from a previous
cycle, processing the `start` event of a new cycle (offset
`1700000000001-0`) leaves the durable cursor set — to the start event's own
offset — rather than clearing it. -/
theorem start_clears_cursor_counterexample :
    (handleMessage (mkChatEventSource (some "1700000000000-7"))
      { type := EventType.start, message_id := some "m1",
        stream_id := some "1700000000001-0" }).1.storedLastMessageId =
      some "1700000000001-0" ∧
    (handleMessage (mkChatEventSource (some "1700000000000-7"))
      { type := EventType.start, message_id := some "m1",
        stream_id := some "1700000000001-0" }).1.storedLastMessageId ≠ none := by
  exact ⟨rfl, by decide⟩

/-- C2 amended: processing a `start` event does not clear the stored
cursor; like every event carrying a `stream_id`, it overwrites the cursor
with the start event's own offset. Clearing exists only as the separate
`reset()` method (which `handleMessage` never calls). -/
theorem start_overwrites_cursor (s : CESState) (d : StreamMessage) (sid : String)
    (hty : d.type = EventType.start) (hsid : d.stream_id = some sid)
    (hne : sid ≠ "") :
    (handleMessage s d).1 = storeLastMessageId s sid ∧
    (∀ s' : CESState, (reset s').lastMessageId = none ∧
      (reset s').storedLastMessageId = none) := by
  constructor
  · rcases d with ⟨ty, co, mi, ta, se, tc, tks, ca, ts, si, consu, li⟩
    simp only at hty hsid
    subst hty hsid
    simp [handleMessage, truthy, hne]
  · intro s'
    exact ⟨rfl, rfl⟩

/-- Concrete instance of `start_overwrites_cursor`: after the new cycle's
`start` at offset `1700000000001-0`, the cursor equals that offset. -/
theorem start_overwrites_cursor_witness :
    (handleMessage (mkChatEventSource (some "1700000000000-7"))
      { type := EventType.start, message_id := some "m1",
        stream_id := some "1700000000001-0" }).1 =
      storeLastMessageId (mkChatEventSource (some "1700000000000-7"))
        "1700000000001-0" :=
  (start_overwrites_cursor (mkChatEventSource (some "1700000000000-7")) _
    "1700000000001-0" rfl rfl (by decide)).1

/-- C6 counterexample: a `terminated` event delivered while an assistant
message is streaming does NOT mark that message as stopped: the chat route
registers no `onTerminated` handler, so the whole route state — message
list (the assistant message keeps status `streaming`), loading flag, spacer
— is unchanged and no message ever gets status `terminated`. -/
theorem terminated_not_marked_counterexample :
    (processEvent "m" 0
      ⟨mkChatEventSource none,
        { messages := [{ content := "hi", isUser := true, timestamp := 0, model := "m", status := some MsgStatus.complete, isComplete := some true },
                       { content := "par", isUser := false, timestamp := 0, model := "m", status := some MsgStatus.streaming, isComplete := some false }],
          isLoading := true, spacerHeight := 0 }⟩
      { type := EventType.terminated, task_id := some "t1",
        content := some "Task terminated by user" }).route =
      { messages := [{ content := "hi", isUser := true, timestamp := 0, model := "m", status := some MsgStatus.complete, isComplete := some true },
                     { content := "par", isUser := false, timestamp := 0, model := "m", status := some MsgStatus.streaming, isComplete := some false }],
        isLoading := true, spacerHeight := 0 } ∧
    ((processEvent "m" 0
      ⟨mkChatEventSource none,
        { messages := [{ content := "hi", isUser := true, timestamp := 0, model := "m", status := some MsgStatus.complete, isComplete := some true },
                       { content := "par", isUser := false, timestamp := 0, model := "m", status := some MsgStatus.streaming, isComplete := some false }],
          isLoading := true, spacerHeight := 0 }⟩
      { type := EventType.terminated, task_id := some "t1",
        content := some "Task terminated by user" }).route.messages.any
        (fun msg => msg.status == some MsgStatus.terminated)) = false := by
  exact ⟨rfl, rfl⟩

/-- C6 amended: `handleMessage` forwards a `terminated` event to the
optional `onTerminated` callback (task id, message text), but the chat
route's options object registers no `onTerminated` handler, so the route
state is left exactly as it was: the partial content is trivially preserved
but the message is never marked stopped/`terminated`. -/
theorem terminated_dispatch_unhandled (modelId : String) (now : Nat)
    (cs : ConsumerState) (d : StreamMessage)
    (hty : d.type = EventType.terminated) :
    (processEvent modelId now cs d).route = cs.route ∧
    (handleMessage cs.ces d).2 =
      [Callback.onTerminated (orDefault d.task_id "unknown") d.content] := by
  rcases d with ⟨ty, co, mi, ta, se, tc, tks, ca, ts, si, consu, li⟩
  simp only at hty
  subst hty
  constructor
  · simp [processEvent, handleMessage, applyCallback]
  · simp [handleMessage]

/-- Concrete instance of `terminated_dispatch_unhandled`: a terminated
event leaves an idle route state untouched. -/
theorem terminated_dispatch_unhandled_witness :
    (processEvent "m" 0
      ⟨mkChatEventSource none, { messages := [], isLoading := false, spacerHeight := 0 }⟩
      { type := EventType.terminated, task_id := some "t1",
        content := some "stopped" }).route =
      { messages := [], isLoading := false, spacerHeight := 0 } :=
  (terminated_dispatch_unhandled "m" 0
    ⟨mkChatEventSource none, { messages := [], isLoading := false, spacerHeight := 0 }⟩
    { type := EventType.terminated, task_id := some "t1", content := some "stopped" }
    rfl).1

/-- C7: an `error` event delivered during a generation cycle — i.e. the
message list ends with that cycle's streaming assistant message — marks
exactly that message incomplete/failed, preserving its already-streamed
content and every earlier message unchanged, and clears the loading flag
(and spacer). -/
theorem error_marks_cycle_message_failed (modelId : String) (now : Nat)
    (cs : ConsumerState) (d : StreamMessage) (init : List Message) (m : Message)
    (hty : d.type = EventType.error)
    (hmsgs : cs.route.messages = init ++ [m])
    (hassistant : m.isUser = false)
    (hstreaming : m.status = some MsgStatus.streaming) :
    (processEvent modelId now cs d).route =
      { messages := init ++
          [{ m with status := some MsgStatus.incomplete, isComplete := some false }],
        isLoading := false,
        spacerHeight := 0 } := by
  rcases d with ⟨ty, co, mi, ta, se, tc, tks, ca, ts, si, consu, li⟩
  simp only at hty
  subst hty
  simp [processEvent, handleMessage, applyCallback, handleSSEError, hmsgs,
    mapLastIndexed_concat]

/-- Concrete instance of `error_marks_cycle_message_failed`: an error event
after two streamed characters leaves the partial text `"pa"` and marks only
the assistant message incomplete. -/
theorem error_marks_cycle_message_failed_witness :
    (processEvent "m" 0
      ⟨mkChatEventSource none,
        { messages := [{ content := "hi", isUser := true, timestamp := 0, model := "m", status := some MsgStatus.complete, isComplete := some true },
                       { content := "pa", isUser := false, timestamp := 0, model := "m", status := some MsgStatus.streaming, isComplete := some false }],
          isLoading := true, spacerHeight := 10 }⟩
      { type := EventType.error, content := some "provider failure" }).route =
      { messages := [{ content := "hi", isUser := true, timestamp := 0, model := "m", status := some MsgStatus.complete, isComplete := some true },
                     { content := "pa", isUser := false, timestamp := 0, model := "m", status := some MsgStatus.incomplete, isComplete := some false }],
        isLoading := false, spacerHeight := 0 } :=
  error_marks_cycle_message_failed "m" 0
    ⟨mkChatEventSource none,
      { messages := [{ content := "hi", isUser := true, timestamp := 0, model := "m", status := some MsgStatus.complete, isComplete := some true },
                     { content := "pa", isUser := false, timestamp := 0, model := "m", status := some MsgStatus.streaming, isComplete := some false }],
        isLoading := true, spacerHeight := 10 }⟩
    { type := EventType.error, content := some "provider failure" }
    [{ content := "hi", isUser := true, timestamp := 0, model := "m", status := some MsgStatus.complete, isComplete := some true }]
    { content := "pa", isUser := false, timestamp := 0, model := "m", status := some MsgStatus.streaming, isComplete := some false }
    rfl rfl rfl rfl

/-- String append with the empty string on the right. -/
@[simp] lemma str_append_empty (s : String) : s ++ "" = s := by
  apply String.ext
  rw [String.data_append]
  exact List.append_nil s.data

/-- String append with the empty string on the left. -/
@[simp] lemma str_empty_append (s : String) : "" ++ s = s := by
  apply String.ext
  rw [String.data_append]
  rfl

/-- Associativity of string append. -/
lemma str_append_assoc (a b c : String) : a ++ b ++ c = a ++ (b ++ c) := by
  apply String.ext
  simp only [String.data_append]
  exact List.append_assoc a.data b.data c.data

/-- Folding append over a list distributes over a prepended accumulator. -/
lemma foldl_append_init (rest : List String) (a b : String) :
    rest.foldl (fun r s => r ++ s) (a ++ b) = a ++ rest.foldl (fun r s => r ++ s) b := by
  induction rest generalizing b with
  | nil => rfl
  | cons x xs ih =>
      rw [List.foldl_cons, List.foldl_cons, str_append_assoc, ih]

/-- `String.join` peels off its head chunk. -/
lemma join_cons (t : String) (rest : List String) :
    String.join (t :: rest) = t ++ String.join rest := by
  have h1 : ("" ++ t : String) = t ++ "" := by
    rw [str_empty_append, str_append_empty]
  rw [String.join, List.foldl_cons, h1, foldl_append_init]
  rfl

/-- `processEvents` on the empty sequence. -/
lemma processEvents_nil (modelId : String) (now : Nat) (cs : ConsumerState) :
    processEvents modelId now cs [] = cs := rfl

/-- `processEvents` peels off the first frame. -/
lemma processEvents_cons (modelId : String) (now : Nat) (cs : ConsumerState)
    (d : StreamMessage) (l : List StreamMessage) :
    processEvents modelId now cs (d :: l) =
      processEvents modelId now (processEvent modelId now cs d) l := rfl

/-- `processEvents` splits over concatenated frame sequences. -/
lemma processEvents_append (modelId : String) (now : Nat) (cs : ConsumerState)
    (l1 l2 : List StreamMessage) :
    processEvents modelId now cs (l1 ++ l2) =
      processEvents modelId now (processEvents modelId now cs l1) l2 :=
  List.foldl_append _ _ _ _

/-- Folding a run of `chunk` events over a state whose message list ends
with the in-progress streaming assistant placeholder appends the chunks'
in-order concatenation to that placeholder's content (a chunk with falsy —
empty — content dispatches no callback, matching the concatenation since it
contributes the empty string). -/
lemma processEvents_chunk_run (modelId : String) (now : Nat) (ces : CESState)
    (init : List Message) (isL : Bool) (sp : Nat) (cl : List String) (c : String) :
    processEvents modelId now
      ⟨ces, { messages := init ++ [{ content := c, isUser := false, timestamp := now, model := modelId, status := some MsgStatus.streaming, isComplete := some false }],
              isLoading := isL, spacerHeight := sp }⟩
      (cl.map (fun t => { type := EventType.chunk, content := some t })) =
      ⟨ces, { messages := init ++ [{ content := c ++ String.join cl, isUser := false, timestamp := now, model := modelId, status := some MsgStatus.streaming, isComplete := some false }],
              isLoading := isL, spacerHeight := sp }⟩ := by
  induction cl generalizing c with
  | nil =>
      simp [processEvents_nil, String.join]
  | cons t rest ih =>
      rw [List.map_cons, processEvents_cons]
      by_cases hne : t = ""
      · subst hne
        have hstep : processEvent modelId now
            ⟨ces, { messages := init ++ [{ content := c, isUser := false, timestamp := now, model := modelId, status := some MsgStatus.streaming, isComplete := some false }],
                    isLoading := isL, spacerHeight := sp }⟩
            { type := EventType.chunk, content := some "" } =
            ⟨ces, { messages := init ++ [{ content := c, isUser := false, timestamp := now, model := modelId, status := some MsgStatus.streaming, isComplete := some false }],
                    isLoading := isL, spacerHeight := sp }⟩ := by
          simp [processEvent, handleMessage, truthy]
        rw [hstep, ih]
        simp [join_cons]
      · have hstep : processEvent modelId now
            ⟨ces, { messages := init ++ [{ content := c, isUser := false, timestamp := now, model := modelId, status := some MsgStatus.streaming, isComplete := some false }],
                    isLoading := isL, spacerHeight := sp }⟩
            { type := EventType.chunk, content := some t } =
            ⟨ces, { messages := init ++ [{ content := c ++ t, isUser := false, timestamp := now, model := modelId, status := some MsgStatus.streaming, isComplete := some false }],
                    isLoading := isL, spacerHeight := sp }⟩ := by
          simp [processEvent, handleMessage, truthy, hne, applyCallback,
            handleSSEChunk, isStreamingAssistant, List.getLast?_concat,
            List.dropLast_concat]
        rw [hstep, ih]
        simp [join_cons, str_append_assoc]

/-- The `tokens` payload of a `complete` event parses to the same option
whether or not the truthiness guard fires (an empty string parses to
`none`). -/
lemma truthy_tokens_parse (tokStr : String) :
    (if truthy (some tokStr) then parseIntJS tokStr else none) = parseIntJS tokStr := by
  by_cases h : tokStr = ""
  · subst h
    simp [truthy, parseIntJS]
  · simp [truthy, h]

/-- C3: delivering `start, chunk c1, …, chunk cn, complete(tokens, ts)` to
a consumer with no streaming message in progress appends exactly one new
assistant message whose content is the in-order concatenation
`String.join [c1, …, cn]`, with status `complete`, `isComplete = true`, the
parsed token count and the completion timestamp; loading and spacer end
cleared. -/
theorem stream_cycle_assembles_message (modelId : String) (now : Nat)
    (cs : ConsumerState) (chunks : List String) (mid tokStr ts : String)
    (hts : ts ≠ "")
    (hidle : hasStreamingLast cs.route.messages = false) :
    processEvents modelId now cs
      ({ type := EventType.start, message_id := some mid } ::
        (chunks.map (fun t => { type := EventType.chunk, content := some t }) ++
          [{ type := EventType.complete, message_id := some mid,
             tokens := some tokStr, completed_at := some ts }])) =
      ⟨cs.ces,
        { messages := cs.route.messages ++
            [{ content := String.join chunks, isUser := false, timestamp := now, model := modelId, completedAt := some ts, status := some MsgStatus.complete, isComplete := some true, tempId := none, tokens := parseIntJS tokStr }],
          isLoading := false, spacerHeight := 0 }⟩ := by
  obtain ⟨ces, msgs, isL, sp⟩ := cs
  rw [processEvents_cons]
  have hstart : processEvent modelId now ⟨ces, ⟨msgs, isL, sp⟩⟩
      { type := EventType.start, message_id := some mid } =
      ⟨ces, ⟨msgs ++ [{ content := "", isUser := false, timestamp := now, model := modelId, status := some MsgStatus.streaming, isComplete := some false }], isL, sp⟩⟩ := by
    simp [processEvent, handleMessage, truthy, applyCallback, handleSSEStart]
  rw [hstart, processEvents_append, processEvents_chunk_run, str_empty_append]
  have hcomplete : processEvent modelId now
      ⟨ces, ⟨msgs ++ [{ content := String.join chunks, isUser := false, timestamp := now, model := modelId, status := some MsgStatus.streaming, isComplete := some false }], isL, sp⟩⟩
      { type := EventType.complete, message_id := some mid,
        tokens := some tokStr, completed_at := some ts } =
      ⟨ces, ⟨msgs ++ [{ content := String.join chunks, isUser := false, timestamp := now, model := modelId, completedAt := some ts, status := some MsgStatus.complete, isComplete := some true, tempId := none, tokens := parseIntJS tokStr }], false, 0⟩⟩ := by
    simp [processEvent, handleMessage, truthy, hts, truthy_tokens_parse,
      applyCallback, handleSSEComplete, mapLastIndexed_concat]
    intro h
    subst h
    rfl
  rw [processEvents_cons, hcomplete, processEvents_nil]

/-- Concrete instance of `stream_cycle_assembles_message` — the spec's
scenario: chunks `"Hel"`, `"lo"` and `complete(tokens = "2")` assemble the
assistant message `"Hello"` with token count 2. -/
theorem stream_cycle_assembles_message_witness :
    processEvents "gemini-2.0-flash" 7
      ⟨mkChatEventSource none, { messages := [], isLoading := true, spacerHeight := 3 }⟩
      [{ type := EventType.start, message_id := some "m1" },
       { type := EventType.chunk, content := some "Hel" },
       { type := EventType.chunk, content := some "lo" },
       { type := EventType.complete, message_id := some "m1",
         tokens := some "2", completed_at := some "2026-01-01T00:00:00Z" }] =
      ⟨mkChatEventSource none,
        { messages := [{ content := "Hello", isUser := false, timestamp := 7, model := "gemini-2.0-flash", completedAt := some "2026-01-01T00:00:00Z", status := some MsgStatus.complete, isComplete := some true, tempId := none, tokens := some 2 }],
          isLoading := false, spacerHeight := 0 }⟩ := by
  have h := stream_cycle_assembles_message "gemini-2.0-flash" 7
    ⟨mkChatEventSource none, { messages := [], isLoading := true, spacerHeight := 3 }⟩
    ["Hel", "lo"] "m1" "2" "2026-01-01T00:00:00Z" (by decide) rfl
  exact h.trans (by decide)

/-- C9: when `sendChatMessage` reports failure, `handleSendMessage` undoes
its optimistic mutations: the appended user message (tagged with the fresh
`temp-<now>` id, which no pre-existing message carries) is filtered back
out, leaving the message list equal to its value before the call, and the
loading flag — false before the call, per its own guard — is reset to
false. -/
theorem send_failure_rolls_back (modelId : String) (now : Nat)
    (messageText : String) (result : SendResult) (st : RouteState)
    (hload : st.isLoading = false)
    (htrim : trimJS messageText ≠ "")
    (hfail : result.success = false)
    (hfresh : ∀ m ∈ st.messages, m.tempId ≠ some ("temp-" ++ toString now)) :
    (handleSendMessage modelId now messageText result st).messages = st.messages ∧
    (handleSendMessage modelId now messageText result st).isLoading = false := by
  have hcond : (trimJS messageText == "") = false := by
    simpa using htrim
  have hself : st.messages.filter
      (fun msg => !(msg.tempId == some ("temp-" ++ toString now))) = st.messages := by
    rw [List.filter_eq_self]
    intro m hm
    simp [hfresh m hm]
  constructor
  · simp [handleSendMessage, hcond, hload, hfail, List.filter_append, hself]
  · simp [handleSendMessage, hcond, hload, hfail]

/-- Concrete instance of `send_failure_rolls_back`: a failed send of
`" hi "` leaves the one pre-existing message and a cleared loading flag. -/
theorem send_failure_rolls_back_witness :
    (handleSendMessage "gemini-2.0-flash" 42 " hi "
      { success := false, error := some "boom" }
      { messages := [{ content := "old", isUser := true, timestamp := 0, model := "m", status := some MsgStatus.complete, isComplete := some true }],
        isLoading := false, spacerHeight := 12 }).messages =
      [{ content := "old", isUser := true, timestamp := 0, model := "m", status := some MsgStatus.complete, isComplete := some true }] ∧
    (handleSendMessage "gemini-2.0-flash" 42 " hi "
      { success := false, error := some "boom" }
      { messages := [{ content := "old", isUser := true, timestamp := 0, model := "m", status := some MsgStatus.complete, isComplete := some true }],
        isLoading := false, spacerHeight := 12 }).isLoading = false :=
  send_failure_rolls_back "gemini-2.0-flash" 42 " hi "
    { success := false, error := some "boom" }
    { messages := [{ content := "old", isUser := true, timestamp := 0, model := "m", status := some MsgStatus.complete, isComplete := some true }],
      isLoading := false, spacerHeight := 12 }
    rfl (by decide) rfl (by decide)
